import Mathlib

/-!
Verification development for the selenium-webext-bridge repository.

The definitions below are a shallow embedding of the JavaScript source:

* src/extension/background.js — event ring buffers (pushTabEvent,
  pushWindowEvent), the onMessage listener (handleBody / handleMessage),
  and the in-handler waitForTabUrl polling loop;
* src/extension/test-api.js — bgCall and the page-side TestBridge.waitFor;
* src/lib/test-bridge.js — ensureReady / init / reset readiness logic and
  the waiters waitForTabCount, waitForWindowCount, waitForTabEvent,
  waitForTabLoad;
* src/unnamed/part_003 (test-helpers) — the generic waitForCondition
  polling primitive.

Modelling conventions: JavaScript values are the inductive type JSVal
(undefined, null, booleans, numbers, strings, arrays, objects); fallible
or asynchronous browser calls are oracles returning Except String v,
where an error value stands for a thrown exception carrying that message;
wall-clock time is idealised so that a poll is instantaneous and a
sleep(ms) advances elapsed time by exactly ms; polling loops are embedded
with an explicit fuel argument (an Option-none result means the fuel ran
out, which the totality lemmas show never happens for positive intervals
when fuel exceeds the timeout).
-/

/-- A JavaScript value, as far as the bridge code observes them. -/
inductive JSVal where
  | vUndefined
  | vNull
  | vBool (b : Bool)
  | vNum (n : Int)
  | vStr (s : String)
  | vArr (elems : List JSVal)
  | vObj (fields : List (String × JSVal))

/-- JavaScript truthiness: undefined, null, false, 0 and the empty string
are falsy; every other value (including empty arrays and objects) is
truthy. -/
def JSVal.truthy : JSVal → Bool
  | .vUndefined => false
  | .vNull => false
  | .vBool b => b
  | .vNum n => n != 0
  | .vStr s => s != ""
  | .vArr _ => true
  | .vObj _ => true

/-- Property lookup obj[key]; undefined for a missing field or a
non-object receiver. -/
def JSVal.getField : JSVal → String → JSVal
  | .vObj fields, key => lookupField fields key
  | _, _ => .vUndefined
where
  lookupField : List (String × JSVal) → String → JSVal
    | [], _ => .vUndefined
    | (k, v) :: rest, key => if k = key then v else lookupField rest key

/-- Property assignment obj[key] = v on an object literal. -/
def JSVal.setField : JSVal → String → JSVal → JSVal
  | .vObj fields, key, v => .vObj (setPairs fields key v)
  | other, _, _ => other
where
  setPairs : List (String × JSVal) → String → JSVal → List (String × JSVal)
    | [], key, v => [(key, v)]
    | (k, w) :: rest, key, v =>
      if k = key then (key, v) :: rest else (k, w) :: setPairs rest key v

/-- Is this value the undefined value (the x !== undefined checks). -/
def JSVal.isUndef : JSVal → Bool
  | .vUndefined => true
  | _ => false

/-- Strict equality with a string literal (the x === str checks). -/
def JSVal.isStr : JSVal → String → Bool
  | .vStr t, s => t = s
  | _, _ => false

/-- String coercion as used when a value is concatenated into a message. -/
def JSVal.jsToString : JSVal → String
  | .vUndefined => "undefined"
  | .vNull => "null"
  | .vBool b => if b then "true" else "false"
  | .vNum n => toString n
  | .vStr s => s
  | .vArr _ => "[array]"
  | .vObj _ => "[object Object]"

/-! ## Event ring buffers (src/extension/background.js lines 36 to 68) -/

def TAB_EVENT_BUFFER_SIZE : Nat := 100

def WINDOW_EVENT_BUFFER_SIZE : Nat := 100

/-- pushTabEvent: tabEventBuffer.push(event); if the length now exceeds
TAB_EVENT_BUFFER_SIZE, tabEventBuffer.shift() discards the oldest. -/
def pushTabEvent (tabEventBuffer : List JSVal) (event : JSVal) : List JSVal :=
  let b := tabEventBuffer ++ [event]
  if TAB_EVENT_BUFFER_SIZE < b.length then b.tail else b

/-- pushWindowEvent: same shape as pushTabEvent, over windowEventBuffer. -/
def pushWindowEvent (windowEventBuffer : List JSVal) (event : JSVal) : List JSVal :=
  let b := windowEventBuffer ++ [event]
  if WINDOW_EVENT_BUFFER_SIZE < b.length then b.tail else b

/-! ## The generic polling primitive waitForCondition
(src/unnamed/part_003 lines 268 to 282) -/

/-- The outcome of one invocation of an async condition function: it
either throws, or produces a value (falsy values mean not satisfied). -/
inductive PollOutcome where
  | err
  | val (v : JSVal)

/-- Truthiness of a poll outcome; a throw counts as not satisfied. -/
def PollOutcome.isTruthy : PollOutcome → Bool
  | .err => false
  | .val v => v.truthy

/-- The observable outcome of a finished wait: the returned value plus
how many polls were made and how many interval sleeps were taken. -/
structure WaitTrace where
  result : JSVal
  polls : Nat
  sleeps : Nat

/-- One-step unfolding of the while loop of waitForCondition.  The
condition function is modelled as a map from the poll index to that
invocation's outcome; elapsed time starts at 0 and each sleep(interval)
advances it by interval (never backwards, matching setTimeout clamping).
A none result means the explicit fuel ran out. -/
def waitLoop (cond : Nat → PollOutcome) (timeout interval : Int) :
    Nat → Nat → Int → Option WaitTrace
  | 0, _, _ => none
  | fuel + 1, k, elapsed =>
    if elapsed < timeout then
      match cond k with
      | .val v =>
        if v.truthy then some ⟨v, k + 1, k⟩
        else waitLoop cond timeout interval fuel (k + 1) (elapsed + max interval 0)
      | .err => waitLoop cond timeout interval fuel (k + 1) (elapsed + max interval 0)
    else some ⟨.vNull, k, k⟩

/-- waitForCondition(conditionFn, timeout, interval): poll until a truthy
result (returned as-is) or until the elapsed time reaches the timeout
(returning null). -/
def waitForCondition (cond : Nat → PollOutcome) (timeout interval : Int) :
    Option WaitTrace :=
  waitLoop cond timeout interval (timeout.toNat + 1) 0 0

/-! ## TestBridge.waitFor (src/extension/test-api.js lines 76 to 83) -/

namespace TestApi

/-- The while loop of the page-side TestBridge.waitFor.  Unlike
waitForCondition it has no try/catch, its interval is fixed at 100 ms,
and it returns the boolean true on success and false on timeout. -/
def waitForLoop (cond : Nat → JSVal) (timeout : Int) :
    Nat → Nat → Int → Option WaitTrace
  | 0, _, _ => none
  | fuel + 1, k, elapsed =>
    if elapsed < timeout then
      if (cond k).truthy then some ⟨.vBool true, k + 1, k⟩
      else waitForLoop cond timeout fuel (k + 1) (elapsed + 100)
    else some ⟨.vBool false, k, k⟩

/-- TestBridge.waitFor(conditionFn, timeout): returns true as soon as the
condition is truthy, false on timeout. -/
def waitFor (cond : Nat → JSVal) (timeout : Int) : Option WaitTrace :=
  waitForLoop cond timeout (timeout.toNat + 1) 0 0

end TestApi

/-! ## The background message handler (src/extension/background.js lines 80 to 302) -/

/-- The structured response object of the message handler. -/
structure Response where
  success : Bool
  data : JSVal
  error : JSVal

/-- A success response: the object literal with success true and data. -/
def Response.ok (data : JSVal) : Response :=
  ⟨true, data, .vUndefined⟩

/-- A failure response: the object literal with success false and error. -/
def Response.fail (msg : String) : Response :=
  ⟨false, .vUndefined, .vStr msg⟩

/-- The two module-level event buffers of the background script. -/
structure BuffersState where
  tabEventBuffer : List JSVal
  windowEventBuffer : List JSVal

/-- The browser WebExtension APIs the handler calls, as oracles.  Each
oracle returns the resolved value or the message of a thrown or rejected
error.  tabsQuery takes the current elapsed time as its first argument
because the in-handler waitForTabUrl loop re-queries over time. -/
structure BrowserEnv where
  tabsQuery : Int → JSVal → Except String JSVal
  tabGroupsAvailable : Bool
  tabGroupsQuery : JSVal → Except String JSVal
  tabsMove : JSVal → JSVal → Except String JSVal
  tabsUpdate : JSVal → JSVal → Except String JSVal
  tabsReload : JSVal → Except String JSVal
  tabsGroup : JSVal → Except String JSVal
  tabGroupsUpdate : JSVal → JSVal → Except String JSVal
  tabsUngroup : JSVal → Except String JSVal
  runtimeSendMessage : JSVal → JSVal → Except String JSVal
  tabsCreate : JSVal → Except String JSVal
  tabsRemove : JSVal → Except String JSVal
  tabsGet : JSVal → Except String JSVal
  tabsExecuteScript : JSVal → JSVal → Except String JSVal
  tabsCaptureVisibleTab : JSVal → Except String JSVal
  windowsCreate : JSVal → Except String JSVal
  windowsRemove : JSVal → Except String JSVal
  windowsGetAll : JSVal → Except String JSVal
  windowsGet : JSVal → JSVal → Except String JSVal
  windowsUpdate : JSVal → JSVal → Except String JSVal

/-- Strict equality with the number -1 (the groupId === -1 check). -/
def JSVal.isNegOne : JSVal → Bool
  | .vNum n => n == -1
  | _ => false

/-- substring containment, modelling String.prototype.includes over the
character lists of the two strings. -/
def strIncludes (s pat : String) : Bool :=
  decide (pat.toList <:+: s.toList)

/-- t.url.includes(pattern); only string receivers and patterns match. -/
def jsIncludes (url pattern : JSVal) : Bool :=
  match url, pattern with
  | .vStr u, .vStr p => strIncludes u p
  | _, _ => false

/-- allTabs.find(t with truthy t.url whose url includes the pattern). -/
def jsFindUrlMatch (tabs pattern : JSVal) : Option JSVal :=
  match tabs with
  | .vArr l =>
    l.find? (fun t => (t.getField "url").truthy && jsIncludes (t.getField "url") pattern)
  | _ => none

/-- activeTabs[0] || null. -/
def jsFirstOrNull (v : JSVal) : JSVal :=
  match v with
  | .vArr (x :: _) => if x.truthy then x else .vNull
  | _ => .vNull

/-- results[0] (undefined when the array is empty). -/
def jsIndexZero (v : JSVal) : JSVal :=
  match v with
  | .vArr (x :: _) => x
  | _ => .vUndefined

/-- v || d for numeric timeouts (non-numeric timeouts take the default;
the source only ever passes numbers or nothing here). -/
def jsNumOrDefault (v : JSVal) (d : Int) : Int :=
  match v with
  | .vNum n => if n != 0 then n else d
  | _ => d

/-- The polling loop inside the waitForTabUrl case of the handler: query
all tabs every 250 ms until one matches the pattern or the timeout
elapses (data null).  A query error propagates to the outer catch. -/
def waitForTabUrlLoop (env : BrowserEnv) (pattern : JSVal) (timeout : Int) :
    Nat → Int → Except String Response
  | 0, _ => .error "model: polling fuel exhausted"
  | fuel + 1, elapsed =>
    if elapsed < timeout then
      match env.tabsQuery elapsed (.vObj []) with
      | .error e => .error e
      | .ok allTabs =>
        match jsFindUrlMatch allTabs pattern with
        | some t => pure (.ok t)
        | none => waitForTabUrlLoop env pattern timeout fuel (elapsed + 250)
    else pure (.ok .vNull)

/-- The inner try block of the groupTabs case. -/
def groupTabsInner (env : BrowserEnv) (message : JSVal) : Except String JSVal := do
  let g := message.getField "groupId"
  let groupId ←
    if !g.truthy || g.isNegOne then
      env.tabsGroup (.vObj [("tabIds", message.getField "tabIds")])
    else do
      let _ ← env.tabsGroup (.vObj [("groupId", g), ("tabIds", message.getField "tabIds")])
      pure g
  env.tabGroupsUpdate groupId (.vObj [("title", message.getField "title"),
    ("color", if (message.getField "color").truthy then message.getField "color" else .vStr "blue")])

/-- Helper shaping every plainly forwarded case of the switch: await the
oracle chain and wrap its resolved value in a success response object,
letting a thrown error escape to the listener catch block. -/
def respond (x : Except String JSVal) (st : BuffersState) :
    Except String (Response × BuffersState) :=
  match x with
  | .ok v => .ok (.ok v, st)
  | .error e => .error e

/-- The switch over message.action of the onMessage listener body,
taking the already-read action value.  An Except error is an exception
escaping to the listener catch block. -/
def handleSwitch (env : BrowserEnv) (st : BuffersState) (message : JSVal) :
    JSVal → Except String (Response × BuffersState)
  | .vStr a =>
    if a = "getTabs" then
      respond (env.tabsQuery 0 (.vObj [])) st
    else if a = "getTabGroups" then
      if env.tabGroupsAvailable then
        respond (env.tabGroupsQuery (.vObj [])) st
      else pure (.ok (.vArr []), st)
    else if a = "ping" then pure (.ok (.vStr "pong"), st)
    else if a = "moveTab" then
      respond (env.tabsMove (message.getField "tabId")
        (.vObj [("index", message.getField "index")])) st
    else if a = "pinTab" then
      respond (env.tabsUpdate (message.getField "tabId")
        (.vObj [("pinned", .vBool true)])) st
    else if a = "unpinTab" then
      respond (env.tabsUpdate (message.getField "tabId")
        (.vObj [("pinned", .vBool false)])) st
    else if a = "muteTab" then
      respond (env.tabsUpdate (message.getField "tabId")
        (.vObj [("muted", .vBool true)])) st
    else if a = "unmuteTab" then
      respond (env.tabsUpdate (message.getField "tabId")
        (.vObj [("muted", .vBool false)])) st
    else if a = "reloadTab" then
      respond (do let _ ← env.tabsReload (message.getField "tabId"); pure .vNull) st
    else if a = "getActiveTab" then
      respond (do
        let activeTabs ← env.tabsQuery 0
          (.vObj [("active", .vBool true), ("currentWindow", .vBool true)])
        pure (jsFirstOrNull activeTabs)) st
    else if a = "groupTabs" then
      if !env.tabGroupsAvailable then pure (.fail "Tab Groups API not available", st)
      else
        match groupTabsInner env message with
        | .ok group => pure (.ok group, st)
        | .error e => pure (.fail ("Tab group operation failed: " ++ e), st)
    else if a = "ungroupTabs" then
      if !env.tabGroupsAvailable then pure (.fail "Tab Groups API not available", st)
      else
        match message.getField "tabIds" with
        | .vArr tabIds =>
          respond (do
            let _ ← tabIds.mapM fun tabId => env.tabsUngroup tabId
            pure .vNull) st
        | other => .error ("message.tabIds.map is not a function (got " ++ other.jsToString ++ ")")
    else if a = "forwardToExtension" then
      match env.runtimeSendMessage (message.getField "targetExtensionId")
          (message.getField "payload") with
      | .ok resp => pure (.ok resp, st)
      | .error e => pure (.fail ("Extension not responding: " ++ e), st)
    else if a = "createTab" then
      let p0 := JSVal.vObj [("url",
        if (message.getField "url").truthy then message.getField "url" else .vStr "about:blank")]
      let p1 := if !(message.getField "active").isUndef then
        p0.setField "active" (message.getField "active") else p0
      let p2 := if !(message.getField "windowId").isUndef then
        p1.setField "windowId" (message.getField "windowId") else p1
      respond (env.tabsCreate p2) st
    else if a = "closeTab" then
      respond (do let _ ← env.tabsRemove (message.getField "tabId"); pure .vNull) st
    else if a = "getTabById" then
      respond (env.tabsGet (message.getField "tabId")) st
    else if a = "updateTab" then
      let p0 := JSVal.vObj []
      let p1 := if !(message.getField "url").isUndef then
        p0.setField "url" (message.getField "url") else p0
      let p2 := if !(message.getField "active").isUndef then
        p1.setField "active" (message.getField "active") else p1
      let p3 := if !(message.getField "muted").isUndef then
        p2.setField "muted" (message.getField "muted") else p2
      let p4 := if !(message.getField "pinned").isUndef then
        p3.setField "pinned" (message.getField "pinned") else p3
      respond (env.tabsUpdate (message.getField "tabId") p4) st
    else if a = "waitForTabUrl" then
      let timeout := jsNumOrDefault (message.getField "timeout") 10000
      match waitForTabUrlLoop env (message.getField "pattern") timeout (timeout.toNat + 1) 0 with
      | .ok r => pure (r, st)
      | .error e => .error e
    else if a = "executeInTab" then
      respond (do
        let results ← env.tabsExecuteScript (message.getField "tabId")
          (.vObj [("code", message.getField "code")])
        pure (if results.truthy then jsIndexZero results else .vNull)) st
    else if a = "captureScreenshot" then
      let fmt := if (message.getField "format").truthy then message.getField "format"
        else .vStr "png"
      respond (env.tabsCaptureVisibleTab (.vObj [("format", fmt)])) st
    else if a = "createWindow" then
      let p0 := JSVal.vObj [("type", .vStr "normal")]
      let p1 := if (message.getField "url").truthy then
        p0.setField "url" (message.getField "url") else p0
      let p2 := if (message.getField "type").truthy then
        p1.setField "type" (message.getField "type") else p1
      let p3 := if (message.getField "state").truthy then
        p2.setField "state" (message.getField "state") else p2
      let p4 := if !(message.getField "width").isUndef then
        p3.setField "width" (message.getField "width") else p3
      let p5 := if !(message.getField "height").isUndef then
        p4.setField "height" (message.getField "height") else p4
      let p6 := if !(message.getField "left").isUndef then
        p5.setField "left" (message.getField "left") else p5
      let p7 := if !(message.getField "top").isUndef then
        p6.setField "top" (message.getField "top") else p6
      respond (env.windowsCreate p7) st
    else if a = "closeWindow" then
      respond (do let _ ← env.windowsRemove (message.getField "windowId"); pure .vNull) st
    else if a = "getWindows" then
      respond (env.windowsGetAll (.vObj [("populate", .vBool true)])) st
    else if a = "getWindowById" then
      respond (env.windowsGet (message.getField "windowId")
        (.vObj [("populate", .vBool true)])) st
    else if a = "updateWindow" then
      let p0 := JSVal.vObj []
      let p1 := if !(message.getField "state").isUndef then
        p0.setField "state" (message.getField "state") else p0
      let p2 := if !(message.getField "width").isUndef then
        p1.setField "width" (message.getField "width") else p1
      let p3 := if !(message.getField "height").isUndef then
        p2.setField "height" (message.getField "height") else p2
      let p4 := if !(message.getField "left").isUndef then
        p3.setField "left" (message.getField "left") else p3
      let p5 := if !(message.getField "top").isUndef then
        p4.setField "top" (message.getField "top") else p4
      let p6 := if !(message.getField "focused").isUndef then
        p5.setField "focused" (message.getField "focused") else p5
      respond (env.windowsUpdate (message.getField "windowId") p6) st
    else if a = "getTabEvents" then
      let events := st.tabEventBuffer
      let st2 := if (message.getField "clear").truthy then
        { st with tabEventBuffer := [] } else st
      pure (.ok (.vArr events), st2)
    else if a = "getWindowEvents" then
      let winEvents := st.windowEventBuffer
      let st2 := if (message.getField "clear").truthy then
        { st with windowEventBuffer := [] } else st
      pure (.ok (.vArr winEvents), st2)
    else pure (.fail ("Unknown action: " ++ a), st)
  | other => pure (.fail ("Unknown action: " ++ other.jsToString), st)

/-- The body of the onMessage listener: dispatch on message.action. -/
def handleBody (env : BrowserEnv) (st : BuffersState) (message : JSVal) :
    Except String (Response × BuffersState) :=
  handleSwitch env st message (message.getField "action")

/-- The onMessage listener: run the switch body and convert any escaped
error into a success false response (the catch block). -/
def handleMessage (env : BrowserEnv) (st : BuffersState) (message : JSVal) :
    Response × BuffersState :=
  match handleBody env st message with
  | .ok r => r
  | .error e => (.fail e, st)

/-- The action names the switch recognises, in source order. -/
def knownActions : List String :=
  ["getTabs", "getTabGroups", "ping", "moveTab", "pinTab", "unpinTab",
   "muteTab", "unmuteTab", "reloadTab", "getActiveTab", "groupTabs",
   "ungroupTabs", "forwardToExtension", "createTab", "closeTab",
   "getTabById", "updateTab", "waitForTabUrl", "executeInTab",
   "captureScreenshot", "createWindow", "closeWindow", "getWindows",
   "getWindowById", "updateWindow", "getTabEvents", "getWindowEvents"]

/-- bgCall (src/extension/test-api.js lines 8 to 12): unwrap a channel
response, throwing an Error carrying response.error when success is
false and returning response.data otherwise. -/
def bgCall (response : Response) : Except JSVal JSVal :=
  if !response.success then .error response.error else .ok response.data

/-- A well-formed handler response: success true with no error field set,
or success false with no data and a string error message. -/
def RespWF (r : Response) : Prop :=
  (r.success = true ∧ r.error = .vUndefined) ∨
  (r.success = false ∧ r.data = .vUndefined ∧ ∃ e, r.error = .vStr e)

/-! ## TestBridge readiness logic (src/lib/test-bridge.js lines 20 to 111)
and the lib-side waiters (lines 478 to 682) -/

/-- url.startsWith(pre), modelled over the character lists of the two
strings so that it evaluates by reduction. -/
def strStartsWith (s pre : String) : Bool :=
  pre.toList.isPrefixOf s.toList

/-- The readiness flag of the TestBridge instance (this.ready). -/
structure BridgeState where
  ready : Bool

/-- The Selenium driver environment as init and ensureReady observe it:
for each existing window handle, whether switching to it and probing
window.TestBridge succeeds (an error value models a stale handle, which
the loop skips); whether the post-navigation driver.wait for the content
script succeeds before its 20 s limit; and the current page URL. -/
structure DriverEnv where
  handles : List (Except Unit Bool)
  waitSucceeds : Bool
  currentUrl : String

/-- The observable outcome of an async TestBridge method: a returned
value or a thrown error message, together with the instance state it
leaves behind. -/
inductive CallResult (α : Type) where
  | ok (value : α) (state : BridgeState)
  | threw (msg : String) (state : BridgeState)

namespace TestBridge

/-- The for-loop over existing window handles in init: stop at the first
handle whose probe returns true; skip handles that throw. -/
def findBridgeWindow : List (Except Unit Bool) → Bool
  | [] => false
  | .ok true :: _ => true
  | _ :: rest => findBridgeWindow rest

/-- The message of the driver.wait timeout error thrown by init. -/
def initTimeoutMessage : String :=
  "[TestBridge] Timed out waiting for the bridge content script to inject. " ++
  "Make sure createTestServer() is running (or run your weberver on port 8080)."

/-- init: if an existing window already hosts TestBridge, mark ready;
otherwise navigate to a generated test URL and wait for the content
script — on success mark ready, on wait timeout rethrow the error. -/
def init (env : DriverEnv) (s : BridgeState) : CallResult Unit :=
  if findBridgeWindow env.handles then .ok () { s with ready := true }
  else if env.waitSucceeds then .ok () { s with ready := true }
  else .threw initTimeoutMessage s

/-- The error message of the failed content check in ensureReady. -/
def notReadyMessage (url : String) : String :=
  "[TestBridge] The current page (" ++ url ++ ") is not an HTTP/HTTPS " ++
  "webpage. Call bridge.init() to re-establish the connection."

/-- ensureReady: when the ready flag is down, call init and return; when
it is up, check the current URL scheme and either pass or set the flag
to false and throw. -/
def ensureReady (env : DriverEnv) (s : BridgeState) : CallResult Unit :=
  if !s.ready then init env s
  else if strStartsWith env.currentUrl "http://" || strStartsWith env.currentUrl "https://" then
    .ok () s
  else .threw (notReadyMessage env.currentUrl) { s with ready := false }

/-- reset: navigate to a fresh generated HTTP test URL, sleep, then init. -/
def reset (env : DriverEnv) (s : BridgeState) : CallResult Unit :=
  init { env with currentUrl := "http://127.0.0.1:8080/bridge-reset" } s

/-- The while loop of waitForTabLoad: poll getTabById every 250 ms; a
truthy tab with status complete is returned; a missing tab or a thrown
error keeps polling; timeout returns null.  none means fuel ran out. -/
def waitForTabLoadLoop (getTab : Int → Except String JSVal) (timeout : Int) :
    Nat → Int → Option JSVal
  | 0, _ => none
  | fuel + 1, elapsed =>
    if elapsed < timeout then
      match getTab elapsed with
      | .ok tab =>
        if tab.truthy && (tab.getField "status").isStr "complete" then some tab
        else waitForTabLoadLoop getTab timeout fuel (elapsed + 250)
      | .error _ => waitForTabLoadLoop getTab timeout fuel (elapsed + 250)
    else some .vNull

/-- waitForTabLoad(tabId, timeout); getTab is the remote getTabById read
indexed by elapsed time. -/
def waitForTabLoad (getTab : Int → Except String JSVal) (timeout : Int) :
    Option JSVal :=
  waitForTabLoadLoop getTab timeout (timeout.toNat + 1) 0

/-- events.find(e whose type strictly equals the requested event type). -/
def jsFindEventType (v : JSVal) (eventType : String) : Option JSVal :=
  match v with
  | .vArr l => l.find? (fun e => (e.getField "type").isStr eventType)
  | _ => none

/-- The while loop of waitForTabEvent: drain the buffer (without clear)
every 500 ms and return the first event of the requested type; errors
keep polling; timeout returns null. -/
def waitForTabEventLoop (getEvents : Int → Except String JSVal)
    (eventType : String) (timeout : Int) : Nat → Int → Option JSVal
  | 0, _ => none
  | fuel + 1, elapsed =>
    if elapsed < timeout then
      match getEvents elapsed with
      | .ok events =>
        match jsFindEventType events eventType with
        | some m => some m
        | none => waitForTabEventLoop getEvents eventType timeout fuel (elapsed + 500)
      | .error _ => waitForTabEventLoop getEvents eventType timeout fuel (elapsed + 500)
    else some .vNull

/-- waitForTabEvent(eventType, timeout). -/
def waitForTabEvent (getEvents : Int → Except String JSVal)
    (eventType : String) (timeout : Int) : Option JSVal :=
  waitForTabEventLoop getEvents eventType timeout (timeout.toNat + 1) 0

/-- The fixed settle delay of the count waiters (the sleep(2000) between
the first matching read and the verification read). -/
def settleDelayMs : Int := 2000

/-- The polling interval of the count waiters (the sleep(1000) at the
bottom of the loop and in the catch branch). -/
def countPollIntervalMs : Int := 1000

/-- The while loop shared verbatim by waitForTabCount and
waitForWindowCount: read the collection, and on a length match sleep for
the settle delay and read again, returning true only when the second
read still matches; otherwise (including thrown reads) sleep for the
poll interval and continue; timeout returns false. -/
def countWaitLoop (getItems : Int → Except String (List JSVal))
    (expectedCount : Nat) (timeout : Int) : Nat → Int → Option Bool
  | 0, _ => none
  | fuel + 1, elapsed =>
    if elapsed < timeout then
      match getItems elapsed with
      | .ok items =>
        if items.length = expectedCount then
          match getItems (elapsed + settleDelayMs) with
          | .ok verifyItems =>
            if verifyItems.length = expectedCount then some true
            else countWaitLoop getItems expectedCount timeout fuel
              (elapsed + settleDelayMs + countPollIntervalMs)
          | .error _ => countWaitLoop getItems expectedCount timeout fuel
              (elapsed + settleDelayMs + countPollIntervalMs)
        else countWaitLoop getItems expectedCount timeout fuel
          (elapsed + countPollIntervalMs)
      | .error _ => countWaitLoop getItems expectedCount timeout fuel
          (elapsed + countPollIntervalMs)
    else some false

/-- waitForTabCount(expectedCount, timeout); getTabs is the remote tab
list read indexed by elapsed time. -/
def waitForTabCount (getTabs : Int → Except String (List JSVal))
    (expectedCount : Nat) (timeout : Int) : Option Bool :=
  countWaitLoop getTabs expectedCount timeout (timeout.toNat + 1) 0

/-- waitForWindowCount(expectedCount, timeout); its body in the source is
character for character the body of waitForTabCount over getWindows. -/
def waitForWindowCount (getWindows : Int → Except String (List JSVal))
    (expectedCount : Nat) (timeout : Int) : Option Bool :=
  countWaitLoop getWindows expectedCount timeout (timeout.toNat + 1) 0

end TestBridge

/-- A browser environment whose oracles all resolve trivially, used to
evaluate the handler on concrete messages. -/
def stubEnv : BrowserEnv where
  tabsQuery := fun _ _ => .ok (.vArr [])
  tabGroupsAvailable := true
  tabGroupsQuery := fun _ => .ok (.vArr [])
  tabsMove := fun _ _ => .ok .vNull
  tabsUpdate := fun _ _ => .ok .vNull
  tabsReload := fun _ => .ok .vNull
  tabsGroup := fun _ => .ok (.vNum 1)
  tabGroupsUpdate := fun _ _ => .ok .vNull
  tabsUngroup := fun _ => .ok .vNull
  runtimeSendMessage := fun _ _ => .ok .vNull
  tabsCreate := fun _ => .ok .vNull
  tabsRemove := fun _ => .ok .vNull
  tabsGet := fun _ => .ok .vNull
  tabsExecuteScript := fun _ _ => .ok (.vArr [])
  tabsCaptureVisibleTab := fun _ => .ok (.vStr "data:image/png;base64,")
  windowsCreate := fun _ => .ok .vNull
  windowsRemove := fun _ => .ok .vNull
  windowsGetAll := fun _ => .ok (.vArr [])
  windowsGet := fun _ _ => .ok .vNull
  windowsUpdate := fun _ _ => .ok .vNull

/-! ## Theorems -/

/-- Folding pushTabEvent over any event sequence from a buffer within
capacity keeps exactly the last 100 elements of buffer-then-events. -/
theorem pushTabEvent_foldl (es : List JSVal) :
    ∀ buf : List JSVal, buf.length ≤ 100 →
      es.foldl pushTabEvent buf = (buf ++ es).drop ((buf ++ es).length - 100) := by
  induction es with
  | nil => intro buf h; simp [Nat.sub_eq_zero_of_le h]
  | cons e es ih =>
    intro buf h
    rw [List.foldl_cons]
    by_cases hc : buf.length + 1 ≤ 100
    · have hpush : pushTabEvent buf e = buf ++ [e] := by
        simp only [pushTabEvent, TAB_EVENT_BUFFER_SIZE]
        rw [if_neg (by simp; omega)]
      rw [hpush, ih (buf ++ [e]) (by simp; omega)]
      simp [List.append_assoc]
    · have hb : buf.length = 100 := by omega
      have hne : buf ≠ [] := by
        intro hnil; rw [hnil] at hb; simp at hb
      have hpush : pushTabEvent buf e = (buf ++ [e]).tail := by
        simp only [pushTabEvent, TAB_EVENT_BUFFER_SIZE]
        rw [if_pos (by simp; omega)]
      have hlen : ((buf ++ [e]).tail).length ≤ 100 := by
        simp [List.length_tail]; omega
      rw [hpush, ih _ hlen]
      have h1 : (buf ++ [e]).tail ++ es = (buf ++ e :: es).drop 1 := by
        rw [← List.drop_one, ← List.drop_append_of_le_length (by simp)]
        simp [List.append_assoc]
      rw [h1, List.drop_drop]
      congr 1
      simp [List.length_drop, hb]
      omega

/-- C1: for every sequence of record (push) calls into an event buffer of
capacity 100, after any prefix the buffer holds exactly the last
min(n, 100) events recorded (the drop characterisation below), in
insertion order, and its length never exceeds 100; the oldest entry is
the one evicted on overflow.  Holds for both the tab and the window
buffer of background.js. -/
theorem C1_ring_buffer_keeps_last_100 (es : List JSVal) :
    es.foldl pushTabEvent [] = es.drop (es.length - 100) ∧
    (es.foldl pushTabEvent []).length ≤ 100 ∧
    es.foldl pushWindowEvent [] = es.drop (es.length - 100) ∧
    (es.foldl pushWindowEvent []).length ≤ 100 := by
  have hw : pushWindowEvent = pushTabEvent := rfl
  have h := pushTabEvent_foldl es [] (by simp)
  simp only [List.nil_append] at h
  refine ⟨h, ?_, ?_, ?_⟩
  · rw [h]; simp [List.length_drop]; omega
  · rw [hw]; exact h
  · rw [hw, h]; simp [List.length_drop]; omega

/-- If the condition is never truthy, waitLoop with adequate fuel ends in
the timeout exit and returns null. -/
theorem waitLoop_all_falsy (cond : Nat → PollOutcome) (timeout interval : Int)
    (hI : 1 ≤ interval) (hcond : ∀ k, (cond k).isTruthy = false) :
    ∀ fuel k elapsed, (timeout - elapsed).toNat < fuel →
      ∃ n, waitLoop cond timeout interval fuel k elapsed = some ⟨.vNull, n, n⟩ := by
  intro fuel
  induction fuel with
  | zero => intro k elapsed h; omega
  | succ fuel ih =>
    intro k elapsed hfuel
    by_cases he : elapsed < timeout
    · have hmax : max interval 0 = interval := by omega
      have hk := hcond k
      cases hck : cond k with
      | err =>
        simp only [waitLoop, if_pos he, hck, hmax]
        exact ih (k + 1) (elapsed + interval) (by omega)
      | val v =>
        rw [hck] at hk
        simp only [PollOutcome.isTruthy] at hk
        simp only [waitLoop, if_pos he, hck, hk, Bool.false_eq_true, if_false, hmax]
        exact ih (k + 1) (elapsed + interval) (by omega)
    · exact ⟨k, by simp only [waitLoop, if_neg he]⟩

/-- If the condition is falsy before index k and truthy with value v at
index k, and the k-th poll happens before the timeout, waitLoop returns
exactly v after k + 1 polls and k sleeps. -/
theorem waitLoop_first_truthy (cond : Nat → PollOutcome) (timeout interval : Int)
    (k : Nat) (v : JSVal) (hI : 1 ≤ interval)
    (hkt : (k : Int) * interval < timeout)
    (hbefore : ∀ j, j < k → (cond j).isTruthy = false)
    (hk : cond k = .val v) (hv : v.truthy = true) :
    ∀ fuel k0 elapsed, k0 ≤ k → elapsed = (k0 : Int) * interval →
      (timeout - elapsed).toNat < fuel →
      waitLoop cond timeout interval fuel k0 elapsed = some ⟨v, k + 1, k⟩ := by
  intro fuel
  induction fuel with
  | zero => intro k0 elapsed _ _ h; omega
  | succ fuel ih =>
    intro k0 elapsed hk0 hel hfuel
    have hle : elapsed ≤ (k : Int) * interval := by
      rw [hel]
      have hcast : (k0 : Int) ≤ (k : Int) := by exact_mod_cast hk0
      exact mul_le_mul_of_nonneg_right hcast (by omega)
    have he : elapsed < timeout := lt_of_le_of_lt hle hkt
    have hmax : max interval 0 = interval := by omega
    rcases Nat.lt_or_ge k0 k with hlt | hge
    · have hb := hbefore k0 hlt
      cases hck : cond k0 with
      | err =>
        simp only [waitLoop, if_pos he, hck, hmax]
        exact ih (k0 + 1) (elapsed + interval) hlt (by rw [hel]; push_cast; ring) (by omega)
      | val w =>
        rw [hck] at hb
        simp only [PollOutcome.isTruthy] at hb
        simp only [waitLoop, if_pos he, hck, hb, Bool.false_eq_true, if_false, hmax]
        exact ih (k0 + 1) (elapsed + interval) hlt (by rw [hel]; push_cast; ring) (by omega)
    · have hkk : k0 = k := Nat.le_antisymm hk0 hge
      subst hkk
      simp only [waitLoop, if_pos he, hk, hv, if_true]

/-- C2 counterexample: the claim also covers TestBridge.waitFor of
test-api.js, but that function returns the boolean true, not the truthy
value the predicate produced.  With a predicate returning the number 7
on its first call (1 times interval is below the 5000 ms timeout), it
returns true, which is not the value 7. -/
theorem C2_counterexample_waitFor_boolean_coercion :
    TestApi.waitFor (fun _ => .vNum 7) 5000 = some ⟨.vBool true, 1, 0⟩ ∧
    JSVal.vBool true ≠ JSVal.vNum 7 :=
  ⟨rfl, fun h => JSVal.noConfusion h⟩

/-- C2 (amended): for every predicate and every k with k times interval
below the timeout, if the predicate is falsy on its polls before index k
and produces the truthy value v at index k, then waitForCondition of
test-helpers returns exactly v, not a boolean coercion of v.  (The
page-side TestBridge.waitFor instead coerces to the boolean true, see
the counterexample.) -/
theorem C2_waitForCondition_returns_exact_value (cond : Nat → PollOutcome)
    (timeout interval : Int) (k : Nat) (v : JSVal)
    (hI : 1 ≤ interval) (hkt : (k : Int) * interval < timeout)
    (hbefore : ∀ j, j < k → (cond j).isTruthy = false)
    (hk : cond k = .val v) (hv : v.truthy = true) :
    waitForCondition cond timeout interval = some ⟨v, k + 1, k⟩ :=
  waitLoop_first_truthy cond timeout interval k v hI hkt hbefore hk hv
    _ 0 0 (Nat.zero_le k) (by simp) (by omega)

/-- C2 witness: a predicate falsy twice and then truthy with the string
value found is propagated exactly. -/
theorem C2_waitForCondition_returns_exact_value_witness :
    waitForCondition (fun j => if j < 2 then .val .vNull else .val (.vStr "found"))
      1000 100 = some ⟨.vStr "found", 3, 2⟩ :=
  C2_waitForCondition_returns_exact_value
    (fun j => if j < 2 then .val .vNull else .val (.vStr "found"))
    1000 100 2 (.vStr "found") (by decide) (by decide)
    (by intro j hj; interval_cases j <;> rfl) rfl (by decide)

/-- C3: an error thrown during a single poll of waitForCondition is
swallowed and treated as not yet satisfied: a predicate that throws on
its first two invocations and returns a truthy v on the third still
makes the wait return v (with 3 times interval below the timeout); and a
predicate that always throws is never surfaced as an exception, only as
the timeout result null. -/
theorem C3_predicate_errors_swallowed (cond errCond : Nat → PollOutcome)
    (timeout interval : Int) (v : JSVal)
    (hI : 1 ≤ interval) (ht : 3 * interval < timeout)
    (h0 : cond 0 = .err) (h1 : cond 1 = .err) (h2 : cond 2 = .val v)
    (hv : v.truthy = true) (herr : ∀ k, errCond k = .err) :
    waitForCondition cond timeout interval = some ⟨v, 3, 2⟩ ∧
    ∃ n, waitForCondition errCond timeout interval = some ⟨.vNull, n, n⟩ := by
  constructor
  · exact waitLoop_first_truthy cond timeout interval 2 v hI (by push_cast; omega)
      (by intro j hj
          interval_cases j
          · simp [h0, PollOutcome.isTruthy]
          · simp [h1, PollOutcome.isTruthy])
      h2 hv _ 0 0 (by omega) (by simp) (by omega)
  · exact waitLoop_all_falsy errCond timeout interval hI
      (fun k => by simp [herr k, PollOutcome.isTruthy]) _ 0 0 (by omega)

/-- C3 witness: throws twice, then the string ok, with timeout 1000 and
interval 100. -/
theorem C3_predicate_errors_swallowed_witness :
    waitForCondition (fun j => if j < 2 then .err else .val (.vStr "ok")) 1000 100
      = some ⟨.vStr "ok", 3, 2⟩ ∧
    ∃ n, waitForCondition (fun _ => .err) 1000 100 = some ⟨.vNull, n, n⟩ :=
  C3_predicate_errors_swallowed
    (fun j => if j < 2 then .err else .val (.vStr "ok")) (fun _ => .err)
    1000 100 (.vStr "ok") (by decide) (by decide) rfl rfl rfl (by decide)
    (fun _ => rfl)

/-- C9: with a zero or negative timeout both waitForCondition and the
page-side TestBridge.waitFor return immediately with the timeout result:
the while condition fails at once, so zero polls are made and zero
interval sleeps are taken, within the claimed bound of at most one
immediate poll and no sleeping. -/
theorem C9_nonpositive_timeout_no_poll (cond : Nat → PollOutcome)
    (cond2 : Nat → JSVal) (timeout interval : Int) (h : timeout ≤ 0) :
    waitForCondition cond timeout interval = some ⟨.vNull, 0, 0⟩ ∧
    TestApi.waitFor cond2 timeout = some ⟨.vBool false, 0, 0⟩ := by
  have ht : timeout.toNat = 0 := Int.toNat_of_nonpos h
  have hn : ¬ (0 : Int) < timeout := by omega
  constructor
  · unfold waitForCondition
    rw [ht]
    simp only [waitLoop, if_neg hn]
  · unfold TestApi.waitFor
    rw [ht]
    simp only [TestApi.waitForLoop, if_neg hn]

/-- C9 witness: timeout 0 with predicates that would be truthy at once
still returns the timeout result with zero polls and zero sleeps. -/
theorem C9_nonpositive_timeout_no_poll_witness :
    waitForCondition (fun _ => .val (.vStr "ready")) 0 250 = some ⟨.vNull, 0, 0⟩ ∧
    TestApi.waitFor (fun _ => .vStr "ready") 0 = some ⟨.vBool false, 0, 0⟩ :=
  C9_nonpositive_timeout_no_poll _ _ 0 250 (by decide)

/-- C4: for every buffer state with at least one event, draining with
clear true returns a snapshot of all events present at drain time in
insertion order and empties that buffer in the same handler call, so an
immediately following drain with clear false returns the empty sequence;
no event present at drain time survives into the next drain.  Holds for
both getTabEvents and getWindowEvents. -/
theorem C4_drain_with_clear_then_drain_empty (env : BrowserEnv) (st : BuffersState)
    (htab : st.tabEventBuffer ≠ []) (hwin : st.windowEventBuffer ≠ []) :
    (handleMessage env st (.vObj [("action", .vStr "getTabEvents"), ("clear", .vBool true)])).1
      = .ok (.vArr st.tabEventBuffer) ∧
    (handleMessage env st (.vObj [("action", .vStr "getTabEvents"), ("clear", .vBool true)])).2.tabEventBuffer
      = [] ∧
    (handleMessage env
        (handleMessage env st (.vObj [("action", .vStr "getTabEvents"), ("clear", .vBool true)])).2
        (.vObj [("action", .vStr "getTabEvents"), ("clear", .vBool false)])).1
      = .ok (.vArr []) ∧
    (handleMessage env st (.vObj [("action", .vStr "getWindowEvents"), ("clear", .vBool true)])).1
      = .ok (.vArr st.windowEventBuffer) ∧
    (handleMessage env st (.vObj [("action", .vStr "getWindowEvents"), ("clear", .vBool true)])).2.windowEventBuffer
      = [] ∧
    (handleMessage env
        (handleMessage env st (.vObj [("action", .vStr "getWindowEvents"), ("clear", .vBool true)])).2
        (.vObj [("action", .vStr "getWindowEvents"), ("clear", .vBool false)])).1
      = .ok (.vArr []) :=
  ⟨rfl, rfl, rfl, rfl, rfl, rfl⟩

/-- C4 witness: a one-event tab buffer and a one-event window buffer. -/
theorem C4_drain_with_clear_then_drain_empty_witness :
    (handleMessage stubEnv ⟨[.vNum 1], [.vNum 2]⟩
        (.vObj [("action", .vStr "getTabEvents"), ("clear", .vBool true)])).1
      = .ok (.vArr [.vNum 1]) ∧
    (handleMessage stubEnv
        (handleMessage stubEnv ⟨[.vNum 1], [.vNum 2]⟩
          (.vObj [("action", .vStr "getTabEvents"), ("clear", .vBool true)])).2
        (.vObj [("action", .vStr "getTabEvents"), ("clear", .vBool false)])).1
      = .ok (.vArr []) :=
  have h := C4_drain_with_clear_then_drain_empty stubEnv ⟨[.vNum 1], [.vNum 2]⟩
    (List.cons_ne_nil _ _) (List.cons_ne_nil _ _)
  ⟨h.1, h.2.2.1⟩

/-- C8: a message whose action is a string outside the switch cases
reaches the default case: success false with the error text composed
from the unknown name; and bgCall turns every success false response
into a thrown error carrying exactly the channel-supplied error value,
with no retry (bgCall is a single unwrap of a single response). -/
theorem C8_unknown_action_fails_and_propagates (env : BrowserEnv) (st : BuffersState)
    (msg : JSVal) (a : String)
    (hmsg : msg.getField "action" = .vStr a) (h : a ∉ knownActions) :
    (handleMessage env st msg).1 = .fail ("Unknown action: " ++ a) ∧
    bgCall (handleMessage env st msg).1 = .error (.vStr ("Unknown action: " ++ a)) ∧
    (∀ r : Response, r.success = false → bgCall r = .error r.error) := by
  have hne : ∀ s, s ∈ knownActions → ¬(a = s) := fun s hs he => h (he ▸ hs)
  have hb : handleBody env st msg = .ok (.fail ("Unknown action: " ++ a), st) := by
    unfold handleBody
    rw [hmsg]
    simp only [handleSwitch]
    rw [if_neg (hne "getTabs" (by decide)), if_neg (hne "getTabGroups" (by decide)),
      if_neg (hne "ping" (by decide)), if_neg (hne "moveTab" (by decide)),
      if_neg (hne "pinTab" (by decide)), if_neg (hne "unpinTab" (by decide)),
      if_neg (hne "muteTab" (by decide)), if_neg (hne "unmuteTab" (by decide)),
      if_neg (hne "reloadTab" (by decide)), if_neg (hne "getActiveTab" (by decide)),
      if_neg (hne "groupTabs" (by decide)), if_neg (hne "ungroupTabs" (by decide)),
      if_neg (hne "forwardToExtension" (by decide)), if_neg (hne "createTab" (by decide)),
      if_neg (hne "closeTab" (by decide)), if_neg (hne "getTabById" (by decide)),
      if_neg (hne "updateTab" (by decide)), if_neg (hne "waitForTabUrl" (by decide)),
      if_neg (hne "executeInTab" (by decide)), if_neg (hne "captureScreenshot" (by decide)),
      if_neg (hne "createWindow" (by decide)), if_neg (hne "closeWindow" (by decide)),
      if_neg (hne "getWindows" (by decide)), if_neg (hne "getWindowById" (by decide)),
      if_neg (hne "updateWindow" (by decide)), if_neg (hne "getTabEvents" (by decide)),
      if_neg (hne "getWindowEvents" (by decide))]
    rfl
  have h1 : (handleMessage env st msg).1 = .fail ("Unknown action: " ++ a) := by
    unfold handleMessage
    rw [hb]
  refine ⟨h1, ?_, ?_⟩
  · rw [h1]; rfl
  · intro r hr
    simp [bgCall, hr]

/-- C8 witness: the unknown action frobnicate against the stub
environment. -/
theorem C8_unknown_action_fails_and_propagates_witness :
    (handleMessage stubEnv ⟨[], []⟩ (.vObj [("action", .vStr "frobnicate")])).1
      = .fail ("Unknown action: " ++ "frobnicate") ∧
    bgCall (handleMessage stubEnv ⟨[], []⟩ (.vObj [("action", .vStr "frobnicate")])).1
      = .error (.vStr ("Unknown action: " ++ "frobnicate")) ∧
    (∀ r : Response, r.success = false → bgCall r = .error r.error) :=
  C8_unknown_action_fails_and_propagates stubEnv ⟨[], []⟩
    (.vObj [("action", .vStr "frobnicate")]) "frobnicate" rfl (by decide)

/-- respond only ever produces a success-shaped response. -/
theorem respond_wf (x : Except String JSVal) (st : BuffersState)
    (p : Response × BuffersState) (h : respond x st = .ok p) : RespWF p.1 := by
  cases x with
  | ok v =>
    simp only [respond] at h
    cases h
    exact Or.inl ⟨rfl, rfl⟩
  | error e => exact Except.noConfusion h

/-- A pure branch hands its response through unchanged. -/
theorem pure_wf (r : Response) (st2 : BuffersState) (p : Response × BuffersState)
    (h : (pure (r, st2) : Except String (Response × BuffersState)) = .ok p)
    (hr : RespWF r) : RespWF p.1 := by
  have h2 : Except.ok (r, st2) = Except.ok p := h
  cases h2
  exact hr

/-- Every response the in-handler waitForTabUrl loop resolves with is
success-shaped. -/
theorem waitForTabUrlLoop_wf (env : BrowserEnv) (pattern : JSVal) (timeout : Int) :
    ∀ fuel elapsed r, waitForTabUrlLoop env pattern timeout fuel elapsed = .ok r →
      RespWF r := by
  intro fuel
  induction fuel with
  | zero => intro elapsed r h; exact Except.noConfusion h
  | succ fuel ih =>
    intro elapsed r h
    simp only [waitForTabUrlLoop] at h
    by_cases he : elapsed < timeout
    · rw [if_pos he] at h
      split at h
      · exact Except.noConfusion h
      · split at h
        · rename_i t hf
          have h2 : Except.ok (Response.ok t) = Except.ok r := h
          cases h2
          exact Or.inl ⟨rfl, rfl⟩
        · exact ih (elapsed + 250) r h
    · rw [if_neg he] at h
      have h2 : Except.ok (Response.ok .vNull) = Except.ok r := h
      cases h2
      exact Or.inl ⟨rfl, rfl⟩

/-- Every non-throwing result of the switch is a well-formed response. -/
theorem handleSwitch_wf (env : BrowserEnv) (st : BuffersState) (message : JSVal)
    (act : JSVal) (p : Response × BuffersState)
    (hp : handleSwitch env st message act = .ok p) : RespWF p.1 := by
  have hok : ∀ d : JSVal, RespWF (.ok d) := fun d => Or.inl ⟨rfl, rfl⟩
  have hfail : ∀ m : String, RespWF (.fail m) := fun m => Or.inr ⟨rfl, rfl, m, rfl⟩
  cases act with
  | vUndefined => exact pure_wf _ _ _ hp (hfail _)
  | vNull => exact pure_wf _ _ _ hp (hfail _)
  | vBool b => exact pure_wf _ _ _ hp (hfail _)
  | vNum n => exact pure_wf _ _ _ hp (hfail _)
  | vArr l => exact pure_wf _ _ _ hp (hfail _)
  | vObj fields => exact pure_wf _ _ _ hp (hfail _)
  | vStr a =>
    simp only [handleSwitch] at hp
    by_cases h1 : a = "getTabs"
    · rw [if_pos h1] at hp; exact respond_wf _ _ _ hp
    rw [if_neg h1] at hp
    by_cases h2 : a = "getTabGroups"
    · rw [if_pos h2] at hp
      split at hp
      · exact respond_wf _ _ _ hp
      · exact pure_wf _ _ _ hp (hok _)
    rw [if_neg h2] at hp
    by_cases h3 : a = "ping"
    · rw [if_pos h3] at hp; exact pure_wf _ _ _ hp (hok _)
    rw [if_neg h3] at hp
    by_cases h4 : a = "moveTab"
    · rw [if_pos h4] at hp; exact respond_wf _ _ _ hp
    rw [if_neg h4] at hp
    by_cases h5 : a = "pinTab"
    · rw [if_pos h5] at hp; exact respond_wf _ _ _ hp
    rw [if_neg h5] at hp
    by_cases h6 : a = "unpinTab"
    · rw [if_pos h6] at hp; exact respond_wf _ _ _ hp
    rw [if_neg h6] at hp
    by_cases h7 : a = "muteTab"
    · rw [if_pos h7] at hp; exact respond_wf _ _ _ hp
    rw [if_neg h7] at hp
    by_cases h8 : a = "unmuteTab"
    · rw [if_pos h8] at hp; exact respond_wf _ _ _ hp
    rw [if_neg h8] at hp
    by_cases h9 : a = "reloadTab"
    · rw [if_pos h9] at hp; exact respond_wf _ _ _ hp
    rw [if_neg h9] at hp
    by_cases h10 : a = "getActiveTab"
    · rw [if_pos h10] at hp; exact respond_wf _ _ _ hp
    rw [if_neg h10] at hp
    by_cases h11 : a = "groupTabs"
    · rw [if_pos h11] at hp
      split at hp
      · exact pure_wf _ _ _ hp (hfail _)
      · split at hp
        · exact pure_wf _ _ _ hp (hok _)
        · exact pure_wf _ _ _ hp (hfail _)
    rw [if_neg h11] at hp
    by_cases h12 : a = "ungroupTabs"
    · rw [if_pos h12] at hp
      split at hp
      · exact pure_wf _ _ _ hp (hfail _)
      · split at hp
        · exact respond_wf _ _ _ hp
        · exact Except.noConfusion hp
    rw [if_neg h12] at hp
    by_cases h13 : a = "forwardToExtension"
    · rw [if_pos h13] at hp
      split at hp
      · exact pure_wf _ _ _ hp (hok _)
      · exact pure_wf _ _ _ hp (hfail _)
    rw [if_neg h13] at hp
    by_cases h14 : a = "createTab"
    · rw [if_pos h14] at hp; exact respond_wf _ _ _ hp
    rw [if_neg h14] at hp
    by_cases h15 : a = "closeTab"
    · rw [if_pos h15] at hp; exact respond_wf _ _ _ hp
    rw [if_neg h15] at hp
    by_cases h16 : a = "getTabById"
    · rw [if_pos h16] at hp; exact respond_wf _ _ _ hp
    rw [if_neg h16] at hp
    by_cases h17 : a = "updateTab"
    · rw [if_pos h17] at hp; exact respond_wf _ _ _ hp
    rw [if_neg h17] at hp
    by_cases h18 : a = "waitForTabUrl"
    · rw [if_pos h18] at hp
      split at hp
      · rename_i r heq
        exact pure_wf _ _ _ hp (waitForTabUrlLoop_wf env _ _ _ _ r heq)
      · exact Except.noConfusion hp
    rw [if_neg h18] at hp
    by_cases h19 : a = "executeInTab"
    · rw [if_pos h19] at hp; exact respond_wf _ _ _ hp
    rw [if_neg h19] at hp
    by_cases h20 : a = "captureScreenshot"
    · rw [if_pos h20] at hp; exact respond_wf _ _ _ hp
    rw [if_neg h20] at hp
    by_cases h21 : a = "createWindow"
    · rw [if_pos h21] at hp; exact respond_wf _ _ _ hp
    rw [if_neg h21] at hp
    by_cases h22 : a = "closeWindow"
    · rw [if_pos h22] at hp; exact respond_wf _ _ _ hp
    rw [if_neg h22] at hp
    by_cases h23 : a = "getWindows"
    · rw [if_pos h23] at hp; exact respond_wf _ _ _ hp
    rw [if_neg h23] at hp
    by_cases h24 : a = "getWindowById"
    · rw [if_pos h24] at hp; exact respond_wf _ _ _ hp
    rw [if_neg h24] at hp
    by_cases h25 : a = "updateWindow"
    · rw [if_pos h25] at hp; exact respond_wf _ _ _ hp
    rw [if_neg h25] at hp
    by_cases h26 : a = "getTabEvents"
    · rw [if_pos h26] at hp; exact pure_wf _ _ _ hp (hok _)
    rw [if_neg h26] at hp
    by_cases h27 : a = "getWindowEvents"
    · rw [if_pos h27] at hp; exact pure_wf _ _ _ hp (hok _)
    rw [if_neg h27] at hp
    exact pure_wf _ _ _ hp (hfail _)

/-- C10: for every incoming message and every environment (including
ones whose browser calls throw), the background message handler yields a
structured response object of the success/data or success false/error
shape, and any error escaping the switch is converted by the catch block
into success false carrying exactly that error text, leaving the
buffers untouched. -/
theorem C10_handler_total_and_structured (env : BrowserEnv) (st : BuffersState)
    (message : JSVal) :
    RespWF (handleMessage env st message).1 ∧
    (∀ e, handleBody env st message = .error e →
      handleMessage env st message = (.fail e, st)) := by
  constructor
  · cases hb : handleBody env st message with
    | ok p =>
      unfold handleMessage
      rw [hb]
      exact handleSwitch_wf env st message _ p hb
    | error e =>
      unfold handleMessage
      rw [hb]
      exact Or.inr ⟨rfl, rfl, e, rfl⟩
  · intro e he
    unfold handleMessage
    rw [he]

/-- C10 witness: a getTabs message against an environment whose query
throws is answered with success false and the thrown message. -/
theorem C10_handler_total_and_structured_witness :
    RespWF (handleMessage { stubEnv with tabsQuery := fun _ _ => .error "boom" }
      ⟨[], []⟩ (.vObj [("action", .vStr "getTabs")])).1 ∧
    handleMessage { stubEnv with tabsQuery := fun _ _ => .error "boom" }
      ⟨[], []⟩ (.vObj [("action", .vStr "getTabs")]) = (.fail "boom", ⟨[], []⟩) :=
  have h := C10_handler_total_and_structured
    { stubEnv with tabsQuery := fun _ _ => .error "boom" } ⟨[], []⟩
    (.vObj [("action", .vStr "getTabs")])
  ⟨h.1, h.2 "boom" rfl⟩

/-- C5 counterexample: the claim says that with the readiness flag false
after a failed content check, ensureReady fails fast with a NotReady
error and never re-initializes on its own.  In the code the flag-false
branch of ensureReady transparently calls init: starting from the state
right after a failed check (ready false), a plain ensureReady call in an
environment where init can succeed returns ok and flips ready back to
true, with no caller invocation of init or reset. -/
theorem C5_counterexample_ensureReady_reinitializes :
    TestBridge.ensureReady ⟨[], true, "about:config"⟩ ⟨true⟩
      = .threw (TestBridge.notReadyMessage "about:config") ⟨false⟩ ∧
    TestBridge.ensureReady ⟨[], true, "http://127.0.0.1:8080/page"⟩ ⟨false⟩
      = .ok () ⟨true⟩ :=
  ⟨rfl, rfl⟩

/-- C5 (amended): when the flag is up and the current page is not
http(s), ensureReady throws the error naming the invalid location and
lowers the flag in the same call; but whenever the flag is down — the
code does not distinguish Invalidated from Uninitialized — ensureReady
transparently re-initializes by calling init itself, so recovery does
not require an explicit caller init or reset. -/
theorem C5_amended_readiness_behaviour (env : DriverEnv) (s : BridgeState)
    (hready : s.ready = true)
    (hurl : (strStartsWith env.currentUrl "http://"
      || strStartsWith env.currentUrl "https://") = false) :
    TestBridge.ensureReady env s
      = .threw (TestBridge.notReadyMessage env.currentUrl) { s with ready := false } ∧
    (∀ env2 s2, s2.ready = false →
      TestBridge.ensureReady env2 s2 = TestBridge.init env2 s2) := by
  constructor
  · simp [TestBridge.ensureReady, hready, hurl]
  · intro env2 s2 h2
    simp [TestBridge.ensureReady, h2]

/-- C5 amended witness: flag up on an about page throws and lowers the
flag; flag down always defers to init. -/
theorem C5_amended_readiness_behaviour_witness :
    TestBridge.ensureReady ⟨[], true, "about:blank"⟩ ⟨true⟩
      = .threw (TestBridge.notReadyMessage "about:blank") ⟨false⟩ ∧
    (∀ env2 s2, s2.ready = false →
      TestBridge.ensureReady env2 s2 = TestBridge.init env2 s2) :=
  C5_amended_readiness_behaviour ⟨[], true, "about:blank"⟩ ⟨true⟩ rfl (by decide)

/-- If no poll ever observes a complete tab, the waitForTabLoad loop with
adequate fuel ends in the timeout exit and returns null. -/
theorem waitForTabLoadLoop_never (getTab : Int → Except String JSVal) (timeout : Int)
    (hnever : ∀ t tab, getTab t = .ok tab →
      (tab.truthy && (tab.getField "status").isStr "complete") = false) :
    ∀ fuel elapsed, (timeout - elapsed).toNat < fuel →
      TestBridge.waitForTabLoadLoop getTab timeout fuel elapsed = some .vNull := by
  intro fuel
  induction fuel with
  | zero => intro elapsed h; omega
  | succ fuel ih =>
    intro elapsed hfuel
    by_cases he : elapsed < timeout
    · simp only [TestBridge.waitForTabLoadLoop, if_pos he]
      split
      · rename_i tab hg
        rw [hnever elapsed tab hg]
        exact ih (elapsed + 250) (by omega)
      · exact ih (elapsed + 250) (by omega)
    · simp only [TestBridge.waitForTabLoadLoop, if_neg he]

/-- If no drained buffer ever contains an event of the requested type,
the waitForTabEvent loop with adequate fuel returns null. -/
theorem waitForTabEventLoop_never (getEvents : Int → Except String JSVal)
    (eventType : String) (timeout : Int)
    (hnever : ∀ t evs, getEvents t = .ok evs →
      TestBridge.jsFindEventType evs eventType = none) :
    ∀ fuel elapsed, (timeout - elapsed).toNat < fuel →
      TestBridge.waitForTabEventLoop getEvents eventType timeout fuel elapsed
        = some .vNull := by
  intro fuel
  induction fuel with
  | zero => intro elapsed h; omega
  | succ fuel ih =>
    intro elapsed hfuel
    by_cases he : elapsed < timeout
    · simp only [TestBridge.waitForTabEventLoop, if_pos he]
      split
      · rename_i evs hg
        rw [hnever elapsed evs hg]
        exact ih (elapsed + 500) (by omega)
      · exact ih (elapsed + 500) (by omega)
    · simp only [TestBridge.waitForTabEventLoop, if_neg he]

/-- If the observed collection length never equals the expected count,
the count-wait loop with adequate fuel returns false. -/
theorem countWaitLoop_never (getItems : Int → Except String (List JSVal))
    (expectedCount : Nat) (timeout : Int)
    (hnever : ∀ t l, getItems t = .ok l → l.length ≠ expectedCount) :
    ∀ fuel elapsed, (timeout - elapsed).toNat < fuel →
      TestBridge.countWaitLoop getItems expectedCount timeout fuel elapsed
        = some false := by
  intro fuel
  induction fuel with
  | zero => intro elapsed h; omega
  | succ fuel ih =>
    intro elapsed hfuel
    by_cases he : elapsed < timeout
    · simp only [TestBridge.countWaitLoop, if_pos he]
      split
      · rename_i items hg
        rw [if_neg (hnever elapsed items hg)]
        exact ih (elapsed + TestBridge.countPollIntervalMs)
          (by simp only [TestBridge.countPollIntervalMs]; omega)
      · exact ih (elapsed + TestBridge.countPollIntervalMs)
          (by simp only [TestBridge.countPollIntervalMs]; omega)
    · simp only [TestBridge.countWaitLoop, if_neg he]

/-- C6: for every waiter, giving up is a null or false return value and
never a thrown exception: when the success condition never holds,
waitForCondition, waitForTabLoad and waitForTabEvent return null, and
waitForTabCount and waitForWindowCount return false, once the elapsed
time reaches the timeout. -/
theorem C6_timeout_returns_null_or_false
    (cond : Nat → PollOutcome) (timeout interval : Int)
    (getTab getEvents : Int → Except String JSVal) (eventType : String)
    (getTabs getWindows : Int → Except String (List JSVal)) (expectedCount : Nat)
    (hI : 1 ≤ interval)
    (hcond : ∀ k, (cond k).isTruthy = false)
    (htab : ∀ t tab, getTab t = .ok tab →
      (tab.truthy && (tab.getField "status").isStr "complete") = false)
    (hev : ∀ t evs, getEvents t = .ok evs →
      TestBridge.jsFindEventType evs eventType = none)
    (htc : ∀ t l, getTabs t = .ok l → l.length ≠ expectedCount)
    (hwc : ∀ t l, getWindows t = .ok l → l.length ≠ expectedCount) :
    (∃ n, waitForCondition cond timeout interval = some ⟨.vNull, n, n⟩) ∧
    TestBridge.waitForTabLoad getTab timeout = some .vNull ∧
    TestBridge.waitForTabEvent getEvents eventType timeout = some .vNull ∧
    TestBridge.waitForTabCount getTabs expectedCount timeout = some false ∧
    TestBridge.waitForWindowCount getWindows expectedCount timeout = some false := by
  refine ⟨?_, ?_, ?_, ?_, ?_⟩
  · exact waitLoop_all_falsy cond timeout interval hI hcond _ 0 0 (by omega)
  · exact waitForTabLoadLoop_never getTab timeout htab _ 0 (by omega)
  · exact waitForTabEventLoop_never getEvents eventType timeout hev _ 0 (by omega)
  · exact countWaitLoop_never getTabs expectedCount timeout htc _ 0 (by omega)
  · exact countWaitLoop_never getWindows expectedCount timeout hwc _ 0 (by omega)

/-- C6 witness: concrete never-satisfied observations with timeout 1000. -/
theorem C6_timeout_returns_null_or_false_witness :
    (∃ n, waitForCondition (fun _ => .val .vNull) 1000 250 = some ⟨.vNull, n, n⟩) ∧
    TestBridge.waitForTabLoad (fun _ => .ok .vNull) 1000 = some .vNull ∧
    TestBridge.waitForTabEvent (fun _ => .ok (.vArr [])) "created" 1000 = some .vNull ∧
    TestBridge.waitForTabCount (fun _ => .ok [.vNull]) 3 1000 = some false ∧
    TestBridge.waitForWindowCount (fun _ => .ok []) 3 1000 = some false :=
  C6_timeout_returns_null_or_false (fun _ => .val .vNull) 1000 250
    (fun _ => .ok .vNull) (fun _ => .ok (.vArr [])) "created"
    (fun _ => .ok [.vNull]) (fun _ => .ok []) 3
    (by decide) (fun _ => rfl)
    (fun t tab h => by cases h; rfl)
    (fun t evs h => by cases h; rfl)
    (fun t l h => by cases h; decide)
    (fun t l h => by cases h; decide)

/-- Whenever the count-wait loop declares success, some poll observed the
expected length and the verification read one settle delay later still
observed it. -/
theorem countWaitLoop_true_double_check (getItems : Int → Except String (List JSVal))
    (expectedCount : Nat) (timeout : Int) :
    ∀ fuel elapsed,
      TestBridge.countWaitLoop getItems expectedCount timeout fuel elapsed = some true →
      ∃ t l1 l2, getItems t = .ok l1 ∧ l1.length = expectedCount ∧
        getItems (t + TestBridge.settleDelayMs) = .ok l2 ∧
        l2.length = expectedCount := by
  intro fuel
  induction fuel with
  | zero => intro elapsed h; simp [TestBridge.countWaitLoop] at h
  | succ fuel ih =>
    intro elapsed h
    simp only [TestBridge.countWaitLoop] at h
    by_cases he : elapsed < timeout
    · rw [if_pos he] at h
      split at h
      · rename_i items hg
        split at h
        · rename_i hlen
          split at h
          · rename_i verifyItems hg2
            split at h
            · rename_i hlen2
              exact ⟨elapsed, items, verifyItems, hg, hlen, hg2, hlen2⟩
            · exact ih _ h
          · exact ih _ h
        · exact ih _ h
      · exact ih _ h
    · rw [if_neg he] at h
      simp at h

/-- C7: the count waiters declare success only if the observed length
equals the expected count and still equals it after the fixed settle
delay (2000 ms, distinct from the 1000 ms polling interval); a first
match whose verification read no longer matches does not end the wait —
the loop continues polling after the settle delay plus one interval. -/
theorem C7_count_waiters_debounce (getTabs getWindows : Int → Except String (List JSVal))
    (expectedCount : Nat) (timeout : Int) :
    (TestBridge.waitForTabCount getTabs expectedCount timeout = some true →
      ∃ t l1 l2, getTabs t = .ok l1 ∧ l1.length = expectedCount ∧
        getTabs (t + TestBridge.settleDelayMs) = .ok l2 ∧
        l2.length = expectedCount) ∧
    (TestBridge.waitForWindowCount getWindows expectedCount timeout = some true →
      ∃ t l1 l2, getWindows t = .ok l1 ∧ l1.length = expectedCount ∧
        getWindows (t + TestBridge.settleDelayMs) = .ok l2 ∧
        l2.length = expectedCount) ∧
    (∀ fuel elapsed l1 l2, elapsed < timeout →
      getTabs elapsed = .ok l1 → l1.length = expectedCount →
      getTabs (elapsed + TestBridge.settleDelayMs) = .ok l2 →
      l2.length ≠ expectedCount →
      TestBridge.countWaitLoop getTabs expectedCount timeout (fuel + 1) elapsed
        = TestBridge.countWaitLoop getTabs expectedCount timeout fuel
            (elapsed + TestBridge.settleDelayMs + TestBridge.countPollIntervalMs)) ∧
    TestBridge.settleDelayMs ≠ TestBridge.countPollIntervalMs := by
  refine ⟨fun h => countWaitLoop_true_double_check getTabs expectedCount timeout _ 0 h,
    fun h => countWaitLoop_true_double_check getWindows expectedCount timeout _ 0 h,
    ?_, by decide⟩
  intro fuel elapsed l1 l2 he hg1 hlen1 hg2 hlen2
  simp only [TestBridge.countWaitLoop, if_pos he, hg1, if_pos hlen1, hg2]
  rw [if_neg hlen2]

/-- C7 witness: three tabs observed at time 0, two at the verification
read (time 2000), three again later: the first match fails its settle
check and the wait keeps polling until a later double match succeeds. -/
theorem C7_count_waiters_debounce_witness :
    (∃ t l1 l2,
      (fun t : Int => if t = 2000 then (Except.ok [JSVal.vNull, JSVal.vNull] :
          Except String (List JSVal))
        else .ok [JSVal.vNull, JSVal.vNull, JSVal.vNull]) t = .ok l1 ∧
      l1.length = 3 ∧
      (fun t : Int => if t = 2000 then (Except.ok [JSVal.vNull, JSVal.vNull] :
          Except String (List JSVal))
        else .ok [JSVal.vNull, JSVal.vNull, JSVal.vNull]) (t + TestBridge.settleDelayMs)
        = .ok l2 ∧
      l2.length = 3) ∧
    TestBridge.countWaitLoop
      (fun t : Int => if t = 2000 then (Except.ok [JSVal.vNull, JSVal.vNull] :
          Except String (List JSVal))
        else .ok [JSVal.vNull, JSVal.vNull, JSVal.vNull]) 3 10000 6 0
      = TestBridge.countWaitLoop
        (fun t : Int => if t = 2000 then (Except.ok [JSVal.vNull, JSVal.vNull] :
            Except String (List JSVal))
          else .ok [JSVal.vNull, JSVal.vNull, JSVal.vNull]) 3 10000 5
        (0 + TestBridge.settleDelayMs + TestBridge.countPollIntervalMs) :=
  have h := C7_count_waiters_debounce
    (fun t : Int => if t = 2000 then (Except.ok [JSVal.vNull, JSVal.vNull] :
        Except String (List JSVal))
      else .ok [JSVal.vNull, JSVal.vNull, JSVal.vNull])
    (fun t : Int => if t = 2000 then (Except.ok [JSVal.vNull, JSVal.vNull] :
        Except String (List JSVal))
      else .ok [JSVal.vNull, JSVal.vNull, JSVal.vNull])
    3 10000
  ⟨h.1 rfl, h.2.2.1 5 0 [JSVal.vNull, JSVal.vNull, JSVal.vNull] [JSVal.vNull, JSVal.vNull]
    (by decide) rfl rfl rfl (by decide)⟩
